import Mathlib

/-!
Shallow embedding of src/cmake.rs (zed_neocmake extension): the binary
resolution pipeline of language_server_binary_path and the fallback scan
find_cached_binary_on_drive, with theorems settling the spec claims.
-/

namespace NeoCMake

/-- Rust-iterator split on the character dot, as in version_str.split(dot):
splitting the empty list yields one empty component. -/
def splitDot : List Char → List (List Char)
  | [] => [[]]
  | c :: rest =>
    if c = '.' then [] :: splitDot rest
    else
      match splitDot rest with
      | [] => [[c]]
      | h :: t => (c :: h) :: t

/-- Numeric value of a digit list, most significant first, as accumulated by
a decimal parser. -/
def digitsVal (cs : List Char) : Nat :=
  cs.foldl (fun a c => a * 10 + (c.toNat - 48)) 0

/-- Rust str.parse for u32: an optional leading plus sign, then one or
more decimal digits, value below 2^32; anything else fails. -/
def parse_u32 (s : List Char) : Option Nat :=
  let t := match s with
    | c :: rest => if c = '+' then rest else c :: rest
    | [] => []
  if !t.isEmpty && t.all Char.isDigit then
    if digitsVal t < 4294967296 then some (digitsVal t) else none
  else none

/-- Rust str.strip_prefix on char lists: returns the remainder when the
first argument is an exact prefix of the second. -/
def stripPre : List Char → List Char → Option (List Char)
  | [], s => some s
  | _ :: _, [] => none
  | p :: ps, c :: cs => if c = p then stripPre ps cs else none

/-- Rust str.starts_with on char lists. -/
def startsWithChars (pre s : List Char) : Bool :=
  (stripPre pre s).isSome

def prod_dash : List Char := ("neocmakelsp-").toList

def prod_dash_v : List Char := ("neocmakelsp-v").toList

/-- Major/minor/patch extraction from the split parts, exactly as the
source pulls three parts, parses each as u32, and rejects a fourth. -/
def parseTriple (parts : List (List Char)) : Option (Nat × Nat × Nat) :=
  match parts with
  | a :: b :: c :: rest =>
    match parse_u32 a, parse_u32 b, parse_u32 c, rest with
    | some major, some minor, some patch, [] => some (major, minor, patch)
    | _, _, _, _ => none
  | _ => none

/-- The version parse of find_cached_binary_on_drive on one directory name:
require the product dash prefix, strip the product dash v prefix, split the
remainder on dots and parse the triple. -/
def parseVersionChars (name : List Char) : Option (Nat × Nat × Nat) :=
  if startsWithChars prod_dash name then
    match stripPre prod_dash_v name with
    | some version_str => parseTriple (splitDot version_str)
    | none => none
  else none

def parseVersionDir (s : String) : Option (Nat × Nat × Nat) :=
  parseVersionChars s.toList

/-- Rust tuple order on (u32, u32, u32): lexicographic. -/
def tripleLe (a b : Nat × Nat × Nat) : Bool :=
  decide (a.1 < b.1 ∨ (a.1 = b.1 ∧ (a.2.1 < b.2.1 ∨ (a.2.1 = b.2.1 ∧ a.2.2 ≤ b.2.2))))

/-- One step of the running maximum: on equal keys the later element wins,
as Rust max_by_key keeps the last maximum. -/
def maxStep (acc : Option ((Nat × Nat × Nat) × String))
    (x : (Nat × Nat × Nat) × String) : Option ((Nat × Nat × Nat) × String) :=
  match acc with
  | none => some x
  | some m => if tripleLe m.1 x.1 then some x else some m

/-- Iterator max_by_key over the parsed candidates. -/
def max_by_key (l : List ((Nat × Nat × Nat) × String)) :
    Option ((Nat × Nat × Nat) × String) :=
  l.foldl maxStep none

/-- One filter_map step of the scan: parse the entry name, build the
candidate path dir_name/neocmakelsp plus suffix, keep it when the metadata
check says it is a file. -/
def candidateOf (is_file : String → Bool) (exe_suffix : String)
    (dir_name : String) : Option ((Nat × Nat × Nat) × String) :=
  match parseVersionDir dir_name with
  | none => none
  | some v =>
    let candidate := dir_name ++ ("/neocmakelsp") ++ exe_suffix
    if is_file candidate then some (v, candidate) else none

/-- The fallback scan's filesystem view: the read_dir result (none when the
listing itself fails; each entry none when loading that entry fails) and a
metadata oracle telling which paths are existing regular files. -/
structure DirFs where
  entries : Option (List (Option String))
  is_file : String → Bool

def scanCandidates (fs : DirFs) (exe_suffix : String) :
    List ((Nat × Nat × Nat) × String) :=
  ((fs.entries.getD []).filterMap id).filterMap (candidateOf fs.is_file exe_suffix)

/-- find_cached_binary_on_drive: list the working directory (errors flattened
away), parse and validate each entry, take the maximum by version triple,
return its candidate path. -/
def find_cached_binary_on_drive (fs : DirFs) (exe_suffix : String) :
    Option String :=
  (max_by_key (scanCandidates fs exe_suffix)).map (fun c => c.2)

/-! ## The resolution pipeline -/

/-- zed Os tags. -/
inductive Os
  | mac
  | linux
  | windows
deriving DecidableEq, Repr

/-- zed Architecture tags. -/
inductive Arch
  | aarch64
  | x86
  | x8664
deriving DecidableEq, Repr

/-- Installation statuses announced to the host. -/
inductive Status
  | checkingForUpdate
  | downloading
deriving DecidableEq, Repr

/-- A release descriptor: version string plus named assets with URLs. -/
structure Release where
  version : String
  assets : List (String × String)
deriving DecidableEq, Repr

/-- Debug rendering of the Os tag, as the Rust derive prints it. -/
def osDebug : Os → String
  | .mac => "Mac"
  | .linux => "Linux"
  | .windows => "Windows"

/-- Debug rendering of the Architecture tag, as the Rust derive prints it. -/
def archDebug : Arch → String
  | .aarch64 => "Aarch64"
  | .x86 => "X86"
  | .x8664 => "X8664"

/-- Platform-derived executable suffix. -/
def exeSuffixOf : Os → String
  | .windows => ".exe"
  | _ => ""

/-- The fixed platform/architecture to asset-name table; none on the
wildcard arm that returns the unsupported-platform error. -/
def asset_name_of : Os → Arch → Option String
  | .mac, _ => some ("neocmakelsp-universal-apple-darwin.tar.gz")
  | .windows, .aarch64 => some ("neocmakelsp-aarch64-pc-windows-msvc.zip")
  | .windows, .x8664 => some ("neocmakelsp-x86_64-pc-windows-msvc.zip")
  | .linux, .aarch64 => some ("neocmakelsp-aarch64-unknown-linux-gnu.tar.gz")
  | .linux, .x8664 => some ("neocmakelsp-x86_64-unknown-linux-gnu.tar.gz")
  | _, _ => none

/-- The install directory name the download stage computes from the
release version string. -/
def download_version_dir (version : String) : String :=
  ("neocmakelsp-") ++ version

/-- The expected binary path inside the install directory. -/
def download_binary_path (version exe_suffix : String) : String :=
  download_version_dir version ++ ("/neocmakelsp") ++ exe_suffix

/-- One resolution call's view of its collaborators: the worktree PATH
lookup, the resolver's cached field on entry, the platform query, the
release source response, the metadata oracle, the scan listing, the
download and make-executable results, the cleanup-stage listing, and the
per-path result of remove_dir_all (whose value the code discards). -/
structure Env where
  which : Option String
  cached_binary_path : Option String
  platform : Os
  arch : Arch
  release : Except String Release
  is_file : String → Bool
  scanEntries : Option (List (Option String))
  downloadRes : Except String Unit
  makeExecRes : Except String Unit
  cleanupEntries : Except String (List (Except String String))
  removeRes : String → Bool

/-- Everything one resolution call does: its return value, the statuses it
announced in order, whether it attempted the download, whether it listed
the working directory for cleanup, the entry names it tried to remove,
whether it ran the fallback scan, and the cached field on exit. -/
structure Outcome where
  result : Except String String
  statuses : List Status
  downloadAttempted : Bool
  cleanupListed : Bool
  removalsAttempted : List String
  scanRan : Bool
  cached_after : Option String
deriving Repr

/-- The stale-version cleanup loop: each entry that failed to load aborts
with an error; each loaded entry whose name differs from the new version
directory gets a removal attempt whose result is discarded. Returns the
loop's result and the names removal was attempted on. -/
def cleanupLoop (version_dir : String) :
    List (Except String String) → Except String Unit × List String
  | [] => (Except.ok (), [])
  | Except.error e :: _ =>
    (Except.error (("failed to load directory entry ") ++ e), [])
  | Except.ok name :: rest =>
    let r := cleanupLoop version_dir rest
    if name ≠ version_dir then (r.1, name :: r.2) else (r.1, r.2)

/-- The scan's filesystem view inside a resolution call. -/
def scanFs (env : Env) : DirFs :=
  { entries := env.scanEntries, is_file := env.is_file }

/-- Stages 3 to 5 of language_server_binary_path: platform and suffix,
CheckingForUpdate announcement, release lookup with fallback scan on
failure, asset selection, idempotent short-circuit, download, make
executable, stale-version cleanup, cache write. -/
def remoteStage (env : Env) : Outcome :=
  match env.release with
  | Except.error e =>
    match find_cached_binary_on_drive (scanFs env) (exeSuffixOf env.platform) with
    | some path =>
      { result := Except.ok path, statuses := [Status.checkingForUpdate],
        downloadAttempted := false, cleanupListed := false,
        removalsAttempted := [], scanRan := true,
        cached_after := env.cached_binary_path }
    | none =>
      { result := Except.error
          (("GitHub unreachable and no cached binary found: ") ++ e),
        statuses := [Status.checkingForUpdate],
        downloadAttempted := false, cleanupListed := false,
        removalsAttempted := [], scanRan := true,
        cached_after := env.cached_binary_path }
  | Except.ok release =>
    match asset_name_of env.platform env.arch with
    | none =>
      { result := Except.error
          (("Unsupported platform-arch combination: ") ++ osDebug env.platform
            ++ (" ") ++ archDebug env.arch),
        statuses := [Status.checkingForUpdate],
        downloadAttempted := false, cleanupListed := false,
        removalsAttempted := [], scanRan := false,
        cached_after := env.cached_binary_path }
    | some asset_name =>
      match release.assets.find? (fun a => a.1 == asset_name) with
      | none =>
        { result := Except.error
            (("no asset found matching \"") ++ asset_name ++ ("\"")),
          statuses := [Status.checkingForUpdate],
          downloadAttempted := false, cleanupListed := false,
          removalsAttempted := [], scanRan := false,
          cached_after := env.cached_binary_path }
      | some _asset =>
        if env.is_file (download_binary_path release.version (exeSuffixOf env.platform)) then
          { result := Except.ok (download_binary_path release.version (exeSuffixOf env.platform)),
            statuses := [Status.checkingForUpdate],
            downloadAttempted := false, cleanupListed := false,
            removalsAttempted := [], scanRan := false,
            cached_after := some (download_binary_path release.version (exeSuffixOf env.platform)) }
        else
          match env.downloadRes with
          | Except.error e =>
            { result := Except.error (("failed to download file: ") ++ e),
              statuses := [Status.checkingForUpdate, Status.downloading],
              downloadAttempted := true, cleanupListed := false,
              removalsAttempted := [], scanRan := false,
              cached_after := env.cached_binary_path }
          | Except.ok _ =>
            match env.makeExecRes with
            | Except.error e =>
              { result := Except.error e,
                statuses := [Status.checkingForUpdate, Status.downloading],
                downloadAttempted := true, cleanupListed := false,
                removalsAttempted := [], scanRan := false,
                cached_after := env.cached_binary_path }
            | Except.ok _ =>
              match env.cleanupEntries with
              | Except.error e =>
                { result := Except.error
                    (("failed to list working directory ") ++ e),
                  statuses := [Status.checkingForUpdate, Status.downloading],
                  downloadAttempted := true, cleanupListed := false,
                  removalsAttempted := [], scanRan := false,
                  cached_after := env.cached_binary_path }
              | Except.ok entries =>
                match cleanupLoop (download_version_dir release.version) entries with
                | (Except.error e, removed) =>
                  { result := Except.error e,
                    statuses := [Status.checkingForUpdate, Status.downloading],
                    downloadAttempted := true, cleanupListed := true,
                    removalsAttempted := removed, scanRan := false,
                    cached_after := env.cached_binary_path }
                | (Except.ok _, removed) =>
                  { result := Except.ok (download_binary_path release.version (exeSuffixOf env.platform)),
                    statuses := [Status.checkingForUpdate, Status.downloading],
                    downloadAttempted := true, cleanupListed := true,
                    removalsAttempted := removed, scanRan := false,
                    cached_after := some (download_binary_path release.version (exeSuffixOf env.platform)) }

/-- language_server_binary_path: PATH override first, then the in-process
cache revalidated against the filesystem, then the remote stage. -/
def language_server_binary_path (env : Env) : Outcome :=
  match env.which with
  | some path =>
    { result := Except.ok path, statuses := [],
      downloadAttempted := false, cleanupListed := false,
      removalsAttempted := [], scanRan := false,
      cached_after := env.cached_binary_path }
  | none =>
    match env.cached_binary_path with
    | some path =>
      if env.is_file path then
        { result := Except.ok path, statuses := [],
          downloadAttempted := false, cleanupListed := false,
          removalsAttempted := [], scanRan := false,
          cached_after := env.cached_binary_path }
      else remoteStage env
    | none => remoteStage env

/-- The cache-revalidation test of stage 2: some cached path whose metadata
check still reports a regular file. -/
def cacheHit (env : Env) : Bool :=
  match env.cached_binary_path with
  | some path => env.is_file path
  | none => false

/-! ## Concrete filesystems and environments used by witnesses and
counterexamples -/

/-- A numeric component: nonempty, decimal digits only. -/
def numericComp (s : List Char) : Prop :=
  s ≠ [] ∧ s.all Char.isDigit = true

instance (s : List Char) : Decidable (numericComp s) := by
  unfold numericComp
  infer_instance

/-- Concrete filesystem holding the versioned directories 1.2.9, 1.3.0 and
1.2.10, every candidate file present. -/
def fs129 : DirFs :=
  { entries := some [some ("neocmakelsp-v1.2.9"), some ("neocmakelsp-v1.3.0"),
      some ("neocmakelsp-v1.2.10")],
    is_file := fun _ => true }

/-- Concrete environment with a PATH override present and every other
collaborator poisoned. -/
def envWhich : Env :=
  { which := some ("/usr/bin/neocmakelsp"), cached_binary_path := none,
    platform := Os.linux, arch := Arch.x8664,
    release := Except.error ("net down"), is_file := fun _ => false,
    scanEntries := none, downloadRes := Except.error ("no"),
    makeExecRes := Except.error ("no"),
    cleanupEntries := Except.error ("no"), removeRes := fun _ => false }

/-- Concrete environment that fails both remotely and on the fallback
scan, with a stale cached path on entry. -/
def envErr : Env :=
  { which := none, cached_binary_path := some ("old/neocmakelsp"),
    platform := Os.linux, arch := Arch.x8664,
    release := Except.error ("net down"), is_file := fun _ => false,
    scanEntries := none, downloadRes := Except.ok (),
    makeExecRes := Except.ok (), cleanupEntries := Except.ok [],
    removeRes := fun _ => true }

/-- Concrete environment whose release lookup fails while a valid 1.0.0
install sits on disk. -/
def envFallback : Env :=
  { which := none, cached_binary_path := none,
    platform := Os.linux, arch := Arch.x8664,
    release := Except.error ("net down"),
    is_file := fun _ => true,
    scanEntries := some [some ("neocmakelsp-v1.0.0")],
    downloadRes := Except.ok (), makeExecRes := Except.ok (),
    cleanupEntries := Except.ok [], removeRes := fun _ => true }

/-- Concrete environment whose remote branch downloads version 1.0.0. -/
def envDL : Env :=
  { which := none, cached_binary_path := some ("stale"),
    platform := Os.linux, arch := Arch.x8664,
    release := Except.ok
      ({ version := ("v1.0.0"),
         assets := [(("neocmakelsp-x86_64-unknown-linux-gnu.tar.gz"), ("url"))] }),
    is_file := fun _ => false,
    scanEntries := none, downloadRes := Except.ok (),
    makeExecRes := Except.ok (),
    cleanupEntries := Except.ok [Except.ok ("neocmakelsp-v1.0.0"),
      Except.ok ("junk")],
    removeRes := fun _ => false }

/-- Concrete environment whose download and make-executable steps succeed
but whose cleanup-stage directory listing fails. -/
def envCleanupErr : Env :=
  { which := none, cached_binary_path := none,
    platform := Os.linux, arch := Arch.x8664,
    release := Except.ok
      ({ version := ("v1.0.0"),
         assets := [(("neocmakelsp-x86_64-unknown-linux-gnu.tar.gz"), ("url"))] }),
    is_file := fun _ => false,
    scanEntries := none, downloadRes := Except.ok (),
    makeExecRes := Except.ok (),
    cleanupEntries := Except.error ("boom"), removeRes := fun _ => true }

/-- Concrete environment whose release succeeds and whose binary file
already exists on disk, but whose release carries no matching asset. -/
def envNoAsset : Env :=
  { which := none, cached_binary_path := none,
    platform := Os.linux, arch := Arch.x8664,
    release := Except.ok ({ version := ("v1.0.0"), assets := [] }),
    is_file := fun _ => true,
    scanEntries := none, downloadRes := Except.ok (),
    makeExecRes := Except.ok (), cleanupEntries := Except.ok [],
    removeRes := fun _ => true }

/-- Concrete environment for an idempotent re-resolution: the 1.0.0 binary
is present and every download-stage collaborator is poisoned. -/
def envIdem : Env :=
  { which := none, cached_binary_path := none,
    platform := Os.linux, arch := Arch.x8664,
    release := Except.ok
      ({ version := ("v1.0.0"),
         assets := [(("neocmakelsp-x86_64-unknown-linux-gnu.tar.gz"), ("url"))] }),
    is_file := fun _ => true,
    scanEntries := none, downloadRes := Except.error ("would fail"),
    makeExecRes := Except.error ("would fail"),
    cleanupEntries := Except.error ("would fail"), removeRes := fun _ => false }

/-- Concrete environment on an unmapped platform/architecture pair. -/
def envUnsup : Env :=
  { which := none, cached_binary_path := none,
    platform := Os.windows, arch := Arch.x86,
    release := Except.ok ({ version := ("v1.0.0"), assets := [] }),
    is_file := fun _ => false,
    scanEntries := none, downloadRes := Except.ok (),
    makeExecRes := Except.ok (), cleanupEntries := Except.ok [],
    removeRes := fun _ => true }

/-! ## Order lemmas for the version triple comparison -/

lemma tripleLe_refl (a : Nat × Nat × Nat) : tripleLe a a = true := by
  simp [tripleLe]

lemma tripleLe_total (a b : Nat × Nat × Nat) :
    tripleLe a b = true ∨ tripleLe b a = true := by
  simp only [tripleLe, decide_eq_true_eq]
  omega

lemma tripleLe_trans {a b c : Nat × Nat × Nat} (h1 : tripleLe a b = true)
    (h2 : tripleLe b c = true) : tripleLe a c = true := by
  simp only [tripleLe, decide_eq_true_eq] at h1 h2 ⊢
  omega

/-- The running maximum started at a concrete element yields an element of
the input (or the start) that dominates the start and every input. -/
lemma foldl_maxStep_spec (l : List ((Nat × Nat × Nat) × String)) :
    ∀ a : (Nat × Nat × Nat) × String,
      ∃ m, l.foldl maxStep (some a) = some m ∧ (m = a ∨ m ∈ l) ∧
        tripleLe a.1 m.1 = true ∧ ∀ x ∈ l, tripleLe x.1 m.1 = true := by
  induction l with
  | nil =>
    intro a
    exact ⟨a, rfl, Or.inl rfl, tripleLe_refl a.1, by simp⟩
  | cons x t ih =>
    intro a
    by_cases hx : tripleLe a.1 x.1 = true
    · obtain ⟨m, hm, hmem, hle, hall⟩ := ih x
      refine ⟨m, ?_, ?_, ?_, ?_⟩
      · simpa [maxStep, hx] using hm
      · rcases hmem with h | h
        · exact Or.inr (by simp [h])
        · exact Or.inr (List.mem_cons_of_mem _ h)
      · exact tripleLe_trans hx hle
      · intro y hy
        rcases List.mem_cons.mp hy with h | h
        · exact h ▸ hle
        · exact hall y h
    · obtain ⟨m, hm, hmem, hle, hall⟩ := ih a
      refine ⟨m, ?_, ?_, hle, ?_⟩
      · simpa [maxStep, hx] using hm
      · rcases hmem with h | h
        · exact Or.inl h
        · exact Or.inr (List.mem_cons_of_mem _ h)
      · intro y hy
        rcases List.mem_cons.mp hy with h | h
        · subst h
          rcases tripleLe_total y.1 a.1 with ht | ht
          · exact tripleLe_trans ht hle
          · exact absurd ht hx
        · exact hall y h

/-- max_by_key of a nonempty list is some element dominating all others. -/
lemma max_by_key_spec {l : List ((Nat × Nat × Nat) × String)} (h : l ≠ []) :
    ∃ m, max_by_key l = some m ∧ m ∈ l ∧
      ∀ x ∈ l, tripleLe x.1 m.1 = true := by
  match l, h with
  | x :: t, _ =>
    obtain ⟨m, hm, hmem, hle, hall⟩ := foldl_maxStep_spec t x
    refine ⟨m, ?_, ?_, ?_⟩
    · simpa [max_by_key, maxStep] using hm
    · rcases hmem with h | h
      · exact h ▸ List.mem_cons_self x t
      · exact List.mem_cons_of_mem _ h
    · intro y hy
      rcases List.mem_cons.mp hy with h | h
      · exact h ▸ hle
      · exact hall y h

/-! ## C1: the fallback scan picks the maximal version -/

/-- Claim C1: whenever the fallback scan has at least one valid candidate
(hence in particular two or more), find_cached_binary_on_drive returns the
candidate path whose (major, minor, patch) triple is maximal in the
lexicographic order; on the concrete set 1.2.9, 1.3.0, 1.2.10 it returns
the path inside the 1.3.0 directory. -/
theorem C1_scan_selects_max :
    (∀ (fs : DirFs) (exe_suffix : String),
        scanCandidates fs exe_suffix ≠ [] →
        ∃ v p, find_cached_binary_on_drive fs exe_suffix = some p ∧
          (v, p) ∈ scanCandidates fs exe_suffix ∧
          ∀ c ∈ scanCandidates fs exe_suffix, tripleLe c.1 v = true) ∧
    find_cached_binary_on_drive fs129 ("") =
      some ("neocmakelsp-v1.3.0/neocmakelsp") := by
  constructor
  · intro fs exe_suffix h
    obtain ⟨m, hm, hmem, hall⟩ := max_by_key_spec h
    refine ⟨m.1, m.2, ?_, ?_, hall⟩
    · simp [find_cached_binary_on_drive, hm]
    · simpa using hmem
  · decide

/-- Witness for C1 at the concrete three-directory filesystem. -/
theorem C1_scan_selects_max_witness :
    scanCandidates fs129 ("") ≠ [] ∧
      ∃ v p, find_cached_binary_on_drive fs129 ("") = some p ∧
        (v, p) ∈ scanCandidates fs129 ("") ∧
        ∀ c ∈ scanCandidates fs129 (""), tripleLe c.1 v = true :=
  ⟨by decide, C1_scan_selects_max.1 fs129 ("") (by decide)⟩

/-! ## Parsing lemmas for round-tripping version directory names -/

lemma stripPre_append (p r : List Char) : stripPre p (p ++ r) = some r := by
  induction p with
  | nil => rfl
  | cons c cs ih => simp [stripPre, ih]

lemma startsWithChars_append (p r : List Char) :
    startsWithChars p (p ++ r) = true := by
  simp [startsWithChars, stripPre_append]

lemma splitDot_no_dot {s : List Char} (h : ('.') ∉ s) : splitDot s = [s] := by
  induction s with
  | nil => rfl
  | cons c cs ih =>
    have hc : ¬ c = '.' := by
      intro he
      exact h (by simp [he])
    have hcs : ('.') ∉ cs := fun hm => h (List.mem_cons_of_mem c hm)
    simp [splitDot, hc, ih hcs]

lemma splitDot_append {s1 : List Char} (r : List Char) (h : ('.') ∉ s1) :
    splitDot (s1 ++ ('.') :: r) = s1 :: splitDot r := by
  induction s1 with
  | nil => simp [splitDot]
  | cons c cs ih =>
    have hc : ¬ c = '.' := by
      intro he
      exact h (by simp [he])
    have hcs : ('.') ∉ cs := fun hm => h (List.mem_cons_of_mem c hm)
    simp [splitDot, hc, ih hcs]

lemma no_dot_of_digits {s : List Char} (h : s.all Char.isDigit = true) :
    ('.') ∉ s := by
  intro hm
  have hd := List.all_eq_true.mp h _ hm
  exact absurd hd (by decide)

lemma parse_u32_digits {s : List Char} (hne : s ≠ [])
    (hd : s.all Char.isDigit = true) (hlt : digitsVal s < 4294967296) :
    parse_u32 s = some (digitsVal s) := by
  match s, hne with
  | c :: cs, _ =>
    have hc : c.isDigit = true := List.all_eq_true.mp hd c (List.mem_cons_self c cs)
    have hcp : ¬ c = '+' := by
      intro he
      rw [he] at hc
      exact absurd hc (by decide)
    simp [parse_u32, hcp, hd, hlt]

lemma prod_dash_v_eq : prod_dash_v = prod_dash ++ [('v')] := by decide

/-- Round trip: a well-formed name with three in-range numeric components
parses to exactly the triple of their values. -/
lemma parse_roundtrip {s1 s2 s3 : List Char} (h1 : numericComp s1)
    (h2 : numericComp s2) (h3 : numericComp s3)
    (b1 : digitsVal s1 < 4294967296) (b2 : digitsVal s2 < 4294967296)
    (b3 : digitsVal s3 < 4294967296) :
    parseVersionChars (prod_dash_v ++ (s1 ++ ('.') :: (s2 ++ ('.') :: s3))) =
      some (digitsVal s1, digitsVal s2, digitsVal s3) := by
  obtain ⟨h1n, h1d⟩ := h1
  obtain ⟨h2n, h2d⟩ := h2
  obtain ⟨h3n, h3d⟩ := h3
  have hsw : startsWithChars prod_dash
      (prod_dash_v ++ (s1 ++ ('.') :: (s2 ++ ('.') :: s3))) = true := by
    rw [prod_dash_v_eq, List.append_assoc]
    exact startsWithChars_append _ _
  have hsplit : splitDot (s1 ++ ('.') :: (s2 ++ ('.') :: s3)) = [s1, s2, s3] := by
    rw [splitDot_append _ (no_dot_of_digits h1d),
      splitDot_append _ (no_dot_of_digits h2d),
      splitDot_no_dot (no_dot_of_digits h3d)]
  simp [parseVersionChars, hsw, stripPre_append, hsplit, parseTriple,
    parse_u32_digits h1n h1d b1, parse_u32_digits h2n h2d b2,
    parse_u32_digits h3n h3d b3]

/-! ## C7: round trip and silent discard of malformed names -/

lemma candidateOf_none {name : String} (h : parseVersionDir name = none)
    (is_file : String → Bool) (exe_suffix : String) :
    candidateOf is_file exe_suffix name = none := by
  simp [candidateOf, h]

/-- Inserting an entry the parser rejects anywhere in the listing leaves
the fallback scan's answer unchanged. -/
lemma scan_skip_malformed {name : String} (h : parseVersionDir name = none)
    (is_file : String → Bool) (exe_suffix : String)
    (l1 l2 : List (Option String)) :
    find_cached_binary_on_drive ⟨some (l1 ++ some name :: l2), is_file⟩ exe_suffix =
      find_cached_binary_on_drive ⟨some (l1 ++ l2), is_file⟩ exe_suffix := by
  have hs : scanCandidates ⟨some (l1 ++ some name :: l2), is_file⟩ exe_suffix =
      scanCandidates ⟨some (l1 ++ l2), is_file⟩ exe_suffix := by
    simp [scanCandidates, List.filterMap_append, candidateOf_none h]
  simp [find_cached_binary_on_drive, hs]

/-- Claim C7 (amended): a well-formed name whose three numeric components
each fit in the 32-bit range parses to exactly its triple of values; a name
the parser rejects — such as one with a missing component, an extra
component, a non-digit component or a wrong prefix — contributes nothing
to the fallback scan, which never errors on such an entry. -/
theorem C7_parse_roundtrip_and_discard :
    (∀ s1 s2 s3 : List Char, numericComp s1 → numericComp s2 → numericComp s3 →
      digitsVal s1 < 4294967296 → digitsVal s2 < 4294967296 →
      digitsVal s3 < 4294967296 →
      parseVersionChars (prod_dash_v ++ (s1 ++ ('.') :: (s2 ++ ('.') :: s3))) =
        some (digitsVal s1, digitsVal s2, digitsVal s3)) ∧
    (∀ (name : String), parseVersionDir name = none →
      ∀ (is_file : String → Bool) (exe_suffix : String)
        (l1 l2 : List (Option String)),
        find_cached_binary_on_drive ⟨some (l1 ++ some name :: l2), is_file⟩
            exe_suffix =
          find_cached_binary_on_drive ⟨some (l1 ++ l2), is_file⟩ exe_suffix) ∧
    parseVersionDir ("neocmakelsp-v1.2") = none ∧
    parseVersionDir ("neocmakelsp-v1.2.3.4") = none ∧
    parseVersionDir ("neocmakelsp-v1.a.3") = none ∧
    parseVersionDir ("other-v1.2.3") = none :=
  ⟨fun _ _ _ h1 h2 h3 b1 b2 b3 => parse_roundtrip h1 h2 h3 b1 b2 b3,
   fun _ h f suf l1 l2 => scan_skip_malformed h f suf l1 l2,
   by decide, by decide, by decide, by decide⟩

/-- Counterexample to C7 as stated: neocmakelsp-v4294967296.0.0 is
well-formed with three numeric components, yet the parser rejects it
because 4294967296 overflows u32. -/
theorem C7_counterexample :
    numericComp (("4294967296").toList) ∧ numericComp (("0").toList) ∧
    ("neocmakelsp-v4294967296.0.0").toList =
      prod_dash_v ++ ((("4294967296").toList) ++
        ('.') :: ((("0").toList) ++ ('.') :: (("0").toList))) ∧
    parseVersionDir ("neocmakelsp-v4294967296.0.0") = none :=
  ⟨by decide, by decide, by decide, by decide⟩

/-- Witness for C7 at concrete inputs: the name built from components 1, 2
and 3 round-trips, and inserting the rejected name junk leaves a concrete
scan unchanged. -/
theorem C7_parse_roundtrip_and_discard_witness :
    (numericComp (['1']) ∧
      parseVersionChars (prod_dash_v ++
          ((['1']) ++ ('.') :: ((['2']) ++ ('.') :: (['3'])))) =
        some (digitsVal (['1']), digitsVal (['2']), digitsVal (['3']))) ∧
    (parseVersionDir ("junk") = none ∧
      find_cached_binary_on_drive
          ⟨some ([] ++ some ("junk") :: [some ("neocmakelsp-v1.0.0")]),
            fun _ => true⟩ ("") =
        find_cached_binary_on_drive
          ⟨some ([] ++ [some ("neocmakelsp-v1.0.0")]), fun _ => true⟩ ("")) :=
  ⟨⟨by decide,
    C7_parse_roundtrip_and_discard.1 (['1']) (['2']) (['3'])
      (by decide) (by decide) (by decide) (by decide) (by decide) (by decide)⟩,
   ⟨by decide,
    C7_parse_roundtrip_and_discard.2.1 ("junk") (by decide) (fun _ => true) ("")
      [] [some ("neocmakelsp-v1.0.0")]⟩⟩

/-! ## C4: install directory naming versus the scan's parser -/

lemma string_toList_append (a b : String) :
    (a ++ b).toList = a.toList ++ b.toList := by
  cases a
  cases b
  rfl

lemma download_version_dir_toList (r : List Char) :
    (download_version_dir (String.mk (('v') :: r))).toList = prod_dash_v ++ r := by
  show (("neocmakelsp-") ++ String.mk (('v') :: r)).toList = prod_dash_v ++ r
  rw [string_toList_append, prod_dash_v_eq, List.append_assoc]
  rfl

/-- Claim C4 (amended): the download stage names its install directory
neocmakelsp- followed by the release version string verbatim, with the
binary at the fixed relative path inside it; such a directory is
recognized by the fallback scan's parser exactly when the version string
itself has the shape v followed by three in-range numeric components —
in particular for every tag-style version v maj.min.patch. -/
theorem C4_install_dir_naming :
    (∀ version exe_suffix : String,
        download_version_dir version = ("neocmakelsp-") ++ version ∧
        download_binary_path version exe_suffix =
          download_version_dir version ++ ("/neocmakelsp") ++ exe_suffix) ∧
    (∀ s1 s2 s3 : List Char, numericComp s1 → numericComp s2 → numericComp s3 →
      digitsVal s1 < 4294967296 → digitsVal s2 < 4294967296 →
      digitsVal s3 < 4294967296 →
      parseVersionDir (download_version_dir
          (String.mk (('v') :: (s1 ++ ('.') :: (s2 ++ ('.') :: s3))))) =
        some (digitsVal s1, digitsVal s2, digitsVal s3)) := by
  refine ⟨fun _ _ => ⟨rfl, rfl⟩, ?_⟩
  intro s1 s2 s3 h1 h2 h3 b1 b2 b3
  show parseVersionChars _ = _
  rw [download_version_dir_toList]
  exact parse_roundtrip h1 h2 h3 b1 b2 b3

/-- Counterexample to C4 as stated: a release whose version string is
1.2.3 (no leading v) gets the directory neocmakelsp-1.2.3, which does not
follow the persisted neocmakelsp-v scheme and is not recognized by the
fallback scan's parser. -/
theorem C4_counterexample :
    download_version_dir ("1.2.3") = ("neocmakelsp-1.2.3") ∧
    parseVersionDir (download_version_dir ("1.2.3")) = none :=
  ⟨by decide, by decide⟩

/-- Witness for C4 at the concrete version string v1.0.0. -/
theorem C4_install_dir_naming_witness :
    download_version_dir ("v1.0.0") = ("neocmakelsp-v1.0.0") ∧
    parseVersionDir (download_version_dir
        (String.mk (('v') :: ((['1']) ++ ('.') :: ((['0']) ++ ('.') :: (['0'])))))) =
      some (digitsVal (['1']), digitsVal (['0']), digitsVal (['0'])) :=
  ⟨by decide,
   C4_install_dir_naming.2 (['1']) (['0']) (['0'])
     (by decide) (by decide) (by decide) (by decide) (by decide) (by decide)⟩

/-! ## Pipeline dispatch lemmas -/

/-- With no PATH override and no revalidated cache hit, the call runs the
remote stage. -/
lemma resolve_miss (env : Env) (hw : env.which = none)
    (hc : cacheHit env = false) :
    language_server_binary_path env = remoteStage env := by
  unfold language_server_binary_path
  rw [hw]
  cases h : env.cached_binary_path with
  | none => rfl
  | some p =>
    simp only [cacheHit, h] at hc
    simp [hc]

/-- Every remote-stage outcome either leaves the cached field unchanged or
succeeds and stores exactly the returned path. -/
lemma remoteStage_cases (env : Env) :
    (remoteStage env).cached_after = env.cached_binary_path ∨
      ∃ p, (remoteStage env).result = Except.ok p ∧
        (remoteStage env).cached_after = some p := by
  unfold remoteStage
  repeat' split
  all_goals first
    | exact Or.inl rfl
    | exact Or.inr ⟨_, rfl, rfl⟩

/-- Every resolution outcome either leaves the cached field unchanged or
succeeds and stores exactly the returned path. -/
lemma resolve_cases (env : Env) :
    (language_server_binary_path env).cached_after = env.cached_binary_path ∨
      ∃ p, (language_server_binary_path env).result = Except.ok p ∧
        (language_server_binary_path env).cached_after = some p := by
  unfold language_server_binary_path
  repeat' split
  all_goals first
    | exact Or.inl rfl
    | exact remoteStage_cases env

/-! ## C6: the PATH override short-circuits everything -/

/-- Claim C6: whenever the worktree PATH lookup returns a path, the call
returns it at once — no status is announced, no download, no cleanup
listing, no removal, no fallback scan, and the cached field is untouched —
whatever the release source, filesystem or cache contain. -/
theorem C6_path_override (env : Env) (path : String)
    (h : env.which = some path) :
    language_server_binary_path env =
      { result := Except.ok path, statuses := [], downloadAttempted := false,
        cleanupListed := false, removalsAttempted := [], scanRan := false,
        cached_after := env.cached_binary_path } := by
  unfold language_server_binary_path
  rw [h]

/-- Witness for C6 at the concrete override environment. -/
theorem C6_path_override_witness :
    language_server_binary_path envWhich =
      { result := Except.ok ("/usr/bin/neocmakelsp"), statuses := [],
        downloadAttempted := false, cleanupListed := false,
        removalsAttempted := [], scanRan := false, cached_after := none } :=
  C6_path_override envWhich ("/usr/bin/neocmakelsp") rfl

/-! ## C10: error returns leave the resolver cache unchanged -/

/-- Claim C10: whenever the call returns an error, the cached field on
exit equals the cached field on entry. -/
theorem C10_error_preserves_cache (env : Env) (e : String)
    (h : (language_server_binary_path env).result = Except.error e) :
    (language_server_binary_path env).cached_after = env.cached_binary_path := by
  rcases resolve_cases env with h1 | ⟨p, hp, _⟩
  · exact h1
  · rw [h] at hp
    cases hp

/-- Witness for C10 at the failing environment: the combined error is
returned and the stale cached path survives unchanged. -/
theorem C10_error_preserves_cache_witness :
    (language_server_binary_path envErr).result =
      Except.error (("GitHub unreachable and no cached binary found: net down")) ∧
    (language_server_binary_path envErr).cached_after = some ("old/neocmakelsp") :=
  ⟨rfl,
   C10_error_preserves_cache envErr
     ("GitHub unreachable and no cached binary found: net down") rfl⟩

/-! ## C2: release failure falls through to the fallback scan -/

/-- Claim C2: when the release lookup fails, resolution does not fail
immediately: the fallback scan runs; a found candidate path is returned
with the remote error suppressed, and only an empty scan yields an error
mentioning both the remote failure and the missing cached binary. -/
theorem C2_remote_failure_falls_back (env : Env) (e : String)
    (hw : env.which = none) (hc : cacheHit env = false)
    (hr : env.release = Except.error e) :
    (language_server_binary_path env).scanRan = true ∧
    (∀ p, find_cached_binary_on_drive (scanFs env) (exeSuffixOf env.platform) =
        some p →
      (language_server_binary_path env).result = Except.ok p) ∧
    (find_cached_binary_on_drive (scanFs env) (exeSuffixOf env.platform) =
        none →
      (language_server_binary_path env).result =
        Except.error
          (("GitHub unreachable and no cached binary found: ") ++ e)) := by
  rw [resolve_miss env hw hc]
  unfold remoteStage
  rw [hr]
  refine ⟨?_, ?_, ?_⟩
  · cases hf : find_cached_binary_on_drive (scanFs env) (exeSuffixOf env.platform) <;>
      simp [hf]
  · intro p hf
    simp [hf]
  · intro hf
    simp [hf]

/-- Witness for C2: with the release source down, the concrete environment
returns the scanned 1.0.0 path and the failing environment returns the
combined error. -/
theorem C2_remote_failure_falls_back_witness :
    ((language_server_binary_path envFallback).scanRan = true ∧
      (language_server_binary_path envFallback).result =
        Except.ok ("neocmakelsp-v1.0.0/neocmakelsp")) ∧
    (language_server_binary_path envErr).result =
      Except.error (("GitHub unreachable and no cached binary found: net down")) :=
  ⟨⟨(C2_remote_failure_falls_back envFallback ("net down") rfl rfl rfl).1,
    (C2_remote_failure_falls_back envFallback ("net down") rfl rfl rfl).2.1
      ("neocmakelsp-v1.0.0/neocmakelsp") (by decide)⟩,
   (C2_remote_failure_falls_back envErr ("net down") rfl rfl rfl).2.2 rfl⟩

/-! ## C5: which successes write the in-process cache -/

/-- Shape of every remote-stage outcome: the fallback scan ran, or an
error left the cached field unchanged, or a success stored exactly the
returned path. -/
lemma remoteStage_ok_shape (env : Env) :
    (remoteStage env).scanRan = true ∨
      (∃ e, (remoteStage env).result = Except.error e ∧
        (remoteStage env).cached_after = env.cached_binary_path) ∨
      (∃ p, (remoteStage env).result = Except.ok p ∧
        (remoteStage env).cached_after = some p) := by
  unfold remoteStage
  repeat' split
  all_goals first
    | exact Or.inl rfl
    | exact Or.inr (Or.inl ⟨_, rfl, rfl⟩)
    | exact Or.inr (Or.inr ⟨_, rfl, rfl⟩)

/-- Claim C5 (amended): the cached path field is written only by the
remote-release branch, which stores exactly the returned path; a success
through the PATH override or through the fallback scan leaves the field
exactly as it was before the call. -/
theorem C5_cache_write_discipline :
    (∀ (env : Env) (path : String), env.which = some path →
      (language_server_binary_path env).cached_after = env.cached_binary_path) ∧
    (∀ (env : Env) (e : String), env.which = none → cacheHit env = false →
      env.release = Except.error e →
      (language_server_binary_path env).cached_after = env.cached_binary_path) ∧
    (∀ (env : Env) (p : String), env.which = none → cacheHit env = false →
      (language_server_binary_path env).scanRan = false →
      (language_server_binary_path env).result = Except.ok p →
      (language_server_binary_path env).cached_after = some p) := by
  refine ⟨?_, ?_, ?_⟩
  · intro env path h
    unfold language_server_binary_path
    rw [h]
  · intro env e hw hc hr
    rw [resolve_miss env hw hc]
    unfold remoteStage
    rw [hr]
    cases hf : find_cached_binary_on_drive (scanFs env) (exeSuffixOf env.platform) <;>
      simp [hf]
  · intro env p hw hc hs hres
    rw [resolve_miss env hw hc] at hs hres ⊢
    rcases remoteStage_ok_shape env with h1 | ⟨e, he, _⟩ | ⟨q, hq, hcq⟩
    · simp [hs] at h1
    · rw [hres] at he
      cases he
    · rw [hres] at hq
      injection hq with h
      rw [← h] at hcq
      exact hcq

/-- Counterexample to C5 as stated: a resolution that succeeds through the
PATH override returns the override path yet leaves the cached field empty
rather than setting it to the returned path. -/
theorem C5_counterexample :
    (language_server_binary_path envWhich).result =
      Except.ok ("/usr/bin/neocmakelsp") ∧
    (language_server_binary_path envWhich).cached_after = none :=
  ⟨rfl, rfl⟩

/-- Witness for C5 at the override environment and at a concrete
successful download. -/
theorem C5_cache_write_discipline_witness :
    (language_server_binary_path envWhich).cached_after = none ∧
    ((language_server_binary_path envDL).result =
        Except.ok ("neocmakelsp-v1.0.0/neocmakelsp") ∧
      (language_server_binary_path envDL).cached_after =
        some ("neocmakelsp-v1.0.0/neocmakelsp")) :=
  ⟨C5_cache_write_discipline.1 envWhich ("/usr/bin/neocmakelsp") rfl,
   ⟨rfl, C5_cache_write_discipline.2.2 envDL ("neocmakelsp-v1.0.0/neocmakelsp")
      rfl rfl rfl rfl⟩⟩

/-! ## C3: stale-version cleanup semantics after a download -/

/-- When every entry of the cleanup listing loads, the loop succeeds and
attempts removal on exactly the entries whose name differs from the new
version directory. -/
lemma cleanupLoop_all_ok (vd : String) (names : List String) :
    cleanupLoop vd (names.map Except.ok) =
      (Except.ok (), names.filter (fun n => decide (n ≠ vd))) := by
  induction names with
  | nil => rfl
  | cons n ns ih =>
    by_cases h : n = vd
    · simp [cleanupLoop, ih, List.filter, h]
    · simp [cleanupLoop, ih, List.filter, h]

/-- Counterexample to C3 as stated: download and make-executable succeed,
yet a failing working-directory listing during cleanup makes the whole
resolution return an error instead of succeeding. -/
theorem C3_counterexample :
    envCleanupErr.downloadRes = Except.ok () ∧
    envCleanupErr.makeExecRes = Except.ok () ∧
    (language_server_binary_path envCleanupErr).result =
      Except.error ("failed to list working directory boom") :=
  ⟨rfl, rfl, rfl⟩

/-- Claim C3 (amended): after a successful download and make-executable,
removal is attempted on exactly the listed entries whose name differs from
the new version directory, and the outcome never depends on whether those
removals succeed; however, a failure to list the working directory (or to
load one of its entries) during cleanup aborts resolution with an error. -/
theorem C3_cleanup_best_effort :
    (∀ (env : Env) (f : String → Bool),
      language_server_binary_path ({ env with removeRes := f }) =
        language_server_binary_path env) ∧
    (∀ (env : Env) (rel : Release) (an : String) (asset : String × String)
        (names : List String),
      env.which = none → cacheHit env = false →
      env.release = Except.ok rel →
      asset_name_of env.platform env.arch = some an →
      rel.assets.find? (fun a => a.1 == an) = some asset →
      env.is_file (download_binary_path rel.version (exeSuffixOf env.platform)) =
        false →
      env.downloadRes = Except.ok () → env.makeExecRes = Except.ok () →
      env.cleanupEntries = Except.ok (names.map Except.ok) →
      language_server_binary_path env =
        { result := Except.ok
            (download_binary_path rel.version (exeSuffixOf env.platform)),
          statuses := [Status.checkingForUpdate, Status.downloading],
          downloadAttempted := true, cleanupListed := true,
          removalsAttempted :=
            names.filter (fun n => decide (n ≠ download_version_dir rel.version)),
          scanRan := false,
          cached_after := some
            (download_binary_path rel.version (exeSuffixOf env.platform)) }) ∧
    (∀ (env : Env) (rel : Release) (an : String) (asset : String × String)
        (msg : String),
      env.which = none → cacheHit env = false →
      env.release = Except.ok rel →
      asset_name_of env.platform env.arch = some an →
      rel.assets.find? (fun a => a.1 == an) = some asset →
      env.is_file (download_binary_path rel.version (exeSuffixOf env.platform)) =
        false →
      env.downloadRes = Except.ok () → env.makeExecRes = Except.ok () →
      env.cleanupEntries = Except.error msg →
      (language_server_binary_path env).result =
        Except.error (("failed to list working directory ") ++ msg)) := by
  refine ⟨?_, ?_, ?_⟩
  · intro env f
    cases env
    rfl
  · intro env rel an asset names hw hc hr han hfd hnb hd hm hcl
    rw [resolve_miss env hw hc]
    simp [remoteStage, hr, han, hfd, hnb, hd, hm, hcl, cleanupLoop_all_ok]
  · intro env rel an asset msg hw hc hr han hfd hnb hd hm hcl
    rw [resolve_miss env hw hc]
    simp [remoteStage, hr, han, hfd, hnb, hd, hm, hcl]

/-- Witness for C3: the concrete download environment removes exactly the
stale entry junk and succeeds, and replacing its removal oracle changes
nothing. -/
theorem C3_cleanup_best_effort_witness :
    language_server_binary_path
        ({ envDL with removeRes := fun _ => true }) =
      language_server_binary_path envDL ∧
    language_server_binary_path envDL =
      { result := Except.ok ("neocmakelsp-v1.0.0/neocmakelsp"),
        statuses := [Status.checkingForUpdate, Status.downloading],
        downloadAttempted := true, cleanupListed := true,
        removalsAttempted := [("junk")], scanRan := false,
        cached_after := some ("neocmakelsp-v1.0.0/neocmakelsp") } :=
  ⟨C3_cleanup_best_effort.1 envDL (fun _ => true),
   C3_cleanup_best_effort.2.1 envDL
     ({ version := ("v1.0.0"),
        assets := [(("neocmakelsp-x86_64-unknown-linux-gnu.tar.gz"), ("url"))] })
     ("neocmakelsp-x86_64-unknown-linux-gnu.tar.gz")
     ((("neocmakelsp-x86_64-unknown-linux-gnu.tar.gz"), ("url")))
     ([("neocmakelsp-v1.0.0"), ("junk")])
     rfl rfl rfl rfl rfl rfl rfl rfl rfl⟩

/-! ## C8: idempotent re-resolution when the binary already exists -/

/-- Counterexample to C8 as stated: the release source succeeds and the
binary for the returned version already exists, yet because the asset
lookup runs first and finds nothing, resolution errors instead of
returning the existing path. -/
theorem C8_counterexample :
    envNoAsset.release =
      Except.ok ({ version := ("v1.0.0"), assets := [] }) ∧
    envNoAsset.is_file (download_binary_path ("v1.0.0") ("")) = true ∧
    (language_server_binary_path envNoAsset).result =
      Except.error
        ("no asset found matching \"neocmakelsp-x86_64-unknown-linux-gnu.tar.gz\"") :=
  ⟨rfl, rfl, rfl⟩

/-- Claim C8 (amended): when the release source succeeds, the platform is
mapped and the release carries the expected asset, an already-existing
binary file short-circuits: no Downloading status, no download, no
cleanup, no removal, no scan; the existing path is stored in the cache
and returned. -/
theorem C8_idempotent (env : Env) (rel : Release) (an : String)
    (asset : String × String)
    (hw : env.which = none) (hc : cacheHit env = false)
    (hr : env.release = Except.ok rel)
    (han : asset_name_of env.platform env.arch = some an)
    (hfd : rel.assets.find? (fun a => a.1 == an) = some asset)
    (hex : env.is_file
        (download_binary_path rel.version (exeSuffixOf env.platform)) = true) :
    language_server_binary_path env =
      { result := Except.ok
          (download_binary_path rel.version (exeSuffixOf env.platform)),
        statuses := [Status.checkingForUpdate],
        downloadAttempted := false, cleanupListed := false,
        removalsAttempted := [], scanRan := false,
        cached_after := some
          (download_binary_path rel.version (exeSuffixOf env.platform)) } := by
  rw [resolve_miss env hw hc]
  simp [remoteStage, hr, han, hfd, hex]

/-- Witness for C8: the concrete already-installed environment returns the
existing path with only the CheckingForUpdate status and caches it. -/
theorem C8_idempotent_witness :
    language_server_binary_path envIdem =
      { result := Except.ok ("neocmakelsp-v1.0.0/neocmakelsp"),
        statuses := [Status.checkingForUpdate],
        downloadAttempted := false, cleanupListed := false,
        removalsAttempted := [], scanRan := false,
        cached_after := some ("neocmakelsp-v1.0.0/neocmakelsp") } :=
  C8_idempotent envIdem
    ({ version := ("v1.0.0"),
       assets := [(("neocmakelsp-x86_64-unknown-linux-gnu.tar.gz"), ("url"))] })
    ("neocmakelsp-x86_64-unknown-linux-gnu.tar.gz")
    ((("neocmakelsp-x86_64-unknown-linux-gnu.tar.gz"), ("url")))
    rfl rfl rfl rfl rfl rfl

/-! ## C9: the platform/architecture asset table and its two fatal errors -/

/-- Claim C9: the asset table is exactly the fixed mapping — Mac with any
architecture gets the universal archive, Windows and Linux get distinct
per-architecture archives, everything else is unmapped; an unmapped pair
fails with the unsupported-platform error and a mapped pair whose release
lacks the expected asset fails with the asset-not-found error, both
without download, cleanup, fallback scan or cache write. -/
theorem C9_asset_mapping :
    (asset_name_of Os.mac Arch.aarch64 =
        some ("neocmakelsp-universal-apple-darwin.tar.gz") ∧
      asset_name_of Os.mac Arch.x86 =
        some ("neocmakelsp-universal-apple-darwin.tar.gz") ∧
      asset_name_of Os.mac Arch.x8664 =
        some ("neocmakelsp-universal-apple-darwin.tar.gz") ∧
      asset_name_of Os.windows Arch.aarch64 =
        some ("neocmakelsp-aarch64-pc-windows-msvc.zip") ∧
      asset_name_of Os.windows Arch.x8664 =
        some ("neocmakelsp-x86_64-pc-windows-msvc.zip") ∧
      asset_name_of Os.linux Arch.aarch64 =
        some ("neocmakelsp-aarch64-unknown-linux-gnu.tar.gz") ∧
      asset_name_of Os.linux Arch.x8664 =
        some ("neocmakelsp-x86_64-unknown-linux-gnu.tar.gz") ∧
      asset_name_of Os.windows Arch.x86 = none ∧
      asset_name_of Os.linux Arch.x86 = none) ∧
    ((("neocmakelsp-aarch64-pc-windows-msvc.zip") : String) ≠
        ("neocmakelsp-x86_64-pc-windows-msvc.zip") ∧
      (("neocmakelsp-aarch64-unknown-linux-gnu.tar.gz") : String) ≠
        ("neocmakelsp-x86_64-unknown-linux-gnu.tar.gz")) ∧
    (∀ (env : Env) (rel : Release), env.which = none → cacheHit env = false →
      env.release = Except.ok rel →
      asset_name_of env.platform env.arch = none →
      language_server_binary_path env =
        { result := Except.error
            (("Unsupported platform-arch combination: ") ++
              osDebug env.platform ++ (" ") ++ archDebug env.arch),
          statuses := [Status.checkingForUpdate], downloadAttempted := false,
          cleanupListed := false, removalsAttempted := [], scanRan := false,
          cached_after := env.cached_binary_path }) ∧
    (∀ (env : Env) (rel : Release) (an : String), env.which = none →
      cacheHit env = false → env.release = Except.ok rel →
      asset_name_of env.platform env.arch = some an →
      rel.assets.find? (fun a => a.1 == an) = none →
      language_server_binary_path env =
        { result := Except.error
            (("no asset found matching \"") ++ an ++ ("\"")),
          statuses := [Status.checkingForUpdate], downloadAttempted := false,
          cleanupListed := false, removalsAttempted := [], scanRan := false,
          cached_after := env.cached_binary_path }) := by
  refine ⟨⟨rfl, rfl, rfl, rfl, rfl, rfl, rfl, rfl, rfl⟩,
    ⟨by decide, by decide⟩, ?_, ?_⟩
  · intro env rel hw hc hr han
    rw [resolve_miss env hw hc]
    simp [remoteStage, hr, han]
  · intro env rel an hw hc hr han hfd
    rw [resolve_miss env hw hc]
    simp [remoteStage, hr, han, hfd]

/-- Witness for C9: the unsupported Windows X86 pair and the asset-less
Linux release both fail fatally with untouched caches. -/
theorem C9_asset_mapping_witness :
    language_server_binary_path envUnsup =
      { result := Except.error
          ("Unsupported platform-arch combination: Windows X86"),
        statuses := [Status.checkingForUpdate], downloadAttempted := false,
        cleanupListed := false, removalsAttempted := [], scanRan := false,
        cached_after := none } ∧
    language_server_binary_path envNoAsset =
      { result := Except.error
          ("no asset found matching \"neocmakelsp-x86_64-unknown-linux-gnu.tar.gz\""),
        statuses := [Status.checkingForUpdate], downloadAttempted := false,
        cleanupListed := false, removalsAttempted := [], scanRan := false,
        cached_after := none } :=
  ⟨C9_asset_mapping.2.2.1 envUnsup
     ({ version := ("v1.0.0"), assets := [] }) rfl rfl rfl rfl,
   C9_asset_mapping.2.2.2 envNoAsset
     ({ version := ("v1.0.0"), assets := [] })
     ("neocmakelsp-x86_64-unknown-linux-gnu.tar.gz") rfl rfl rfl rfl rfl⟩

end NeoCMake
